import Mathlib

/-!
A shallow embedding of the terminable_threads crate (src/lib.rs,
src/single.rs, src/group.rs, src/traits.rs) and proofs about its join,
terminate and construction operations.

Conventions of the embedding:
* `Arc<Mutex<AtomicBool>>` is `MutexAtomicBool`: the boolean cell plus a
  poisoning bit; `lock()` succeeds exactly when the mutex is not poisoned.
* A finished thread is represented by its `JoinHandle::join` outcome,
  `Except E T`: `.ok` for a normal return, `.error` for the captured
  panic payload (`Box<dyn Any + Send>`). Lists hold the outcomes in
  spawn order.
* A Rust panic of a library function itself (an `expect` or a re-raised
  worker panic in the calling thread) is modelled by `Option`: `none`
  means the call panicked.
-/

set_option autoImplicit false

/-- Model of `Arc<Mutex<AtomicBool>>`: the shared boolean cell together with
whether its mutex is poisoned. -/
structure MutexAtomicBool where
  poisoned : Bool
  value : Bool
deriving DecidableEq, Repr

/-- `Result::is_err` on a `JoinHandle::join` outcome. -/
def exceptIsErr {E T : Type} : Except E T → Bool
  | .ok _ => false
  | .error _ => true

/-- `Result::unwrap`. The panic on `Err` is modelled by `default`; every use
below sits behind a guard that has already excluded errors, or behind the
`Option` layer that records the panic. -/
def exceptUnwrap {E T : Type} [Inhabited T] : Except E T → T
  | .ok a => a
  | .error _ => default

/-- Lines 59 to 62 of lib.rs: `Ok(a) => Err(a), Err(b) => Ok(Some(b))`. -/
def swapToErr {E T : Type} : Except E T → Except T (Option E)
  | .ok a => .error a
  | .error b => .ok (some b)

/-- `Result::unwrap_or`. -/
def unwrapOr {E T : Type} : Except E T → T → T
  | .ok a, _ => a
  | .error _, d => d

/-- Transform only the value of a normally finished thread, keeping panic
payloads untouched. -/
def mapOk {E T : Type} (f : T → T) : Except E T → Except E T
  | .ok a => .ok (f a)
  | .error b => .error b

/-- `TerminableThreads::terminate` (lib.rs lines 29 to 31):
`lock().expect(...).store(true, SeqCst)`. `none` is the `expect` panic on a
poisoned mutex; otherwise the cell is set to `true`. -/
def TerminableThreads.terminate (m : MutexAtomicBool) : Option MutexAtomicBool :=
  if m.poisoned then none else some { m with value := true }

/-- The aggregation step of `TerminableThreads::join` (lib.rs lines 50 to 66):
`joined` is the list of per-thread `JoinHandle::join` outcomes in spawn order.
If no outcome is an error, every outcome is unwrapped into the success list;
otherwise each position is mapped to `None` (normal return) or `Some` of the
captured panic payload. -/
def TerminableThreads.join {E T : Type} [Inhabited T] (joined : List (Except E T)) :
    Except (List (Option E)) (List T) :=
  let hasErrs := joined.any exceptIsErr
  if !hasErrs then
    .ok (joined.map exceptUnwrap)
  else
    .error (joined.map (fun r => unwrapOr (swapToErr r) none))

/-- `TerminableThreads::join` with its `signal_terminate` argument (lib.rs
lines 45 to 67): the optional terminate call touches the flag first (and can
panic on a poisoned mutex), then the outcomes are aggregated. -/
def TerminableThreads.joinSignal {E T : Type} [Inhabited T] (m : MutexAtomicBool)
    (joined : List (Except E T)) (signalTerminate : Bool) :
    Option (MutexAtomicBool × Except (List (Option E)) (List T)) :=
  match (if signalTerminate then TerminableThreads.terminate m else some m) with
  | none => none
  | some m2 => some (m2, TerminableThreads.join joined)

/-- `TerminableThreadsBuilder::new` (lib.rs lines 83 to 93): the freshly
created shared flag, `AtomicBool::new(false)` behind a fresh mutex; builder
and caller share this one cell. -/
def TerminableThreadsBuilder.new : MutexAtomicBool :=
  { poisoned := false, value := false }

/-- `<TerminableThreadHandle as Join>::join` (single.rs lines 30 to 33):
forwards the underlying `JoinHandle::join` outcome unchanged. -/
def TerminableThreadHandle.join {E T : Type} (r : Except E T) : Except E T := r

/-- `<TerminableThreadHandle as Terminate>::terminate` (single.rs lines 42 to
48): on a successful lock stores `false`; on a poisoned lock the match arm
panics, modelled by `none`. -/
def TerminableThreadHandle.terminate (m : MutexAtomicBool) : Option MutexAtomicBool :=
  if m.poisoned then none else some { m with value := false }

/-- State of a thread group (group.rs): the shared `running` flag and the
outcomes the spawned threads will produce, in spawn order. -/
structure GroupState (T E : Type) where
  running : MutexAtomicBool
  innerThreads : List (Except E T)

/-- Rust `collect::<Result<Vec<_>, _>>()`: builds the list of values, stopping
at the first `Err` and returning only that error. -/
def collectResults {E T : Type} : List (Except E T) → Except E (List T)
  | [] => .ok []
  | .error e :: _ => .error e
  | .ok t :: rs =>
    match collectResults rs with
    | .error e => .error e
    | .ok ts => .ok (t :: ts)

/-- `<TerminableThreadGroup as Join>::join` (group.rs lines 55 to 60):
`inner_threads.into_iter().map(join).collect::<Result<Vec, _>>()`. -/
def TerminableThreadGroup.join {E T : Type} (joined : List (Except E T)) :
    Except E (List T) :=
  collectResults joined

/-- `<TerminableThreadGroupArray as Join>::join` (group.rs lines 70 to 75):
`inner_threads.map(|h| h.join().expect(""))`. The `expect` re-raises any
worker panic in the joining thread, modelled by `none`; absent errors the
unwrapped values are returned wrapped in `Ok`. -/
def TerminableThreadGroupArray.join {E T : Type} [Inhabited T]
    (joined : List (Except E T)) : Option (Except E (List T)) :=
  if joined.any exceptIsErr then none
  else some (.ok (joined.map exceptUnwrap))

/-- `<TerminableThreadGroup as Terminate>::terminate` (group.rs lines 85 to
89): `if let Ok(b) = running.lock() { b.store(false, SeqCst) }` — a poisoned
lock is silently skipped and the call still returns normally. -/
def TerminableThreadGroup.terminate (m : MutexAtomicBool) : MutexAtomicBool :=
  if m.poisoned then m else { m with value := false }

/-- `<TerminableThreadGroupArray as Terminate>::terminate` (group.rs lines 98
to 102): identical to the vec variant. -/
def TerminableThreadGroupArray.terminate (m : MutexAtomicBool) : MutexAtomicBool :=
  if m.poisoned then m else { m with value := false }

/-- `TerminableThreadGroup::new` (group.rs lines 112 to 134). The flag is
created with value `true`. `arc_clones` is `Vec::with_capacity(funcs.len())`:
capacity only, length zero, so the fill loop over `arc_clones.iter_mut()`
runs zero times and the later `zip` truncates `funcs` to nothing. Workers are
modelled as pure functions of the flag cell they receive; a spawned worker
produces outcome `.ok` of its result. -/
def TerminableThreadGroup.new {T E : Type} (funcs : List (MutexAtomicBool → T)) :
    GroupState T E :=
  let arcAtomBool : MutexAtomicBool := { poisoned := false, value := true }
  let arcClones : List MutexAtomicBool := []
  let threads : List (Except E T) :=
    (funcs.zip arcClones).map fun fb => .ok (fb.1 fb.2)
  { running := arcAtomBool, innerThreads := threads }

/-- `TerminableThreadGroupArray::new` (group.rs lines 143 to 156): the flag is
created with value `true` and every worker receives a clone of that one
shared cell. -/
def TerminableThreadGroupArray.new {T E : Type} (funcs : List (MutexAtomicBool → T)) :
    GroupState T E :=
  let arcAtomBool : MutexAtomicBool := { poisoned := false, value := true }
  let threads : List (Except E T) := funcs.map fun f => .ok (f arcAtomBool)
  { running := arcAtomBool, innerThreads := threads }

/-- The flag-writing operations `TerminableThreads` exposes after
construction: `terminate`, and `join` with its optional terminate signal. -/
inductive LibOp where
  | terminate : LibOp
  | join : Bool → LibOp

/-- Effect of a `TerminableThreads` operation on the shared flag; a
`terminate` that panics on a poisoned mutex leaves the cell unwritten. -/
def LibOp.runFlag : LibOp → MutexAtomicBool → MutexAtomicBool
  | .terminate, m => (TerminableThreads.terminate m).getD m
  | .join sig, m => if sig then (TerminableThreads.terminate m).getD m else m

def runLibOps (ops : List LibOp) (m : MutexAtomicBool) : MutexAtomicBool :=
  ops.foldl (fun s op => op.runFlag s) m

/-- The flag-touching operations of `TerminableThreadHandle`. -/
inductive HandleOp where
  | terminate : HandleOp
  | join : HandleOp

def HandleOp.runFlag : HandleOp → MutexAtomicBool → MutexAtomicBool
  | .terminate, m => (TerminableThreadHandle.terminate m).getD m
  | .join, m => m

def runHandleOps (ops : List HandleOp) (m : MutexAtomicBool) : MutexAtomicBool :=
  ops.foldl (fun s op => op.runFlag s) m

/-- The flag-touching operations of `TerminableThreadGroup`. -/
inductive GroupOp where
  | terminate : GroupOp
  | join : GroupOp

def GroupOp.runFlag : GroupOp → MutexAtomicBool → MutexAtomicBool
  | .terminate, m => TerminableThreadGroup.terminate m
  | .join, m => m

def runGroupOps (ops : List GroupOp) (m : MutexAtomicBool) : MutexAtomicBool :=
  ops.foldl (fun s op => op.runFlag s) m

/-- The flag-touching operations of `TerminableThreadGroupArray`. -/
inductive ArrayGroupOp where
  | terminate : ArrayGroupOp
  | join : ArrayGroupOp

def ArrayGroupOp.runFlag : ArrayGroupOp → MutexAtomicBool → MutexAtomicBool
  | .terminate, m => TerminableThreadGroupArray.terminate m
  | .join, m => m

def runArrayGroupOps (ops : List ArrayGroupOp) (m : MutexAtomicBool) : MutexAtomicBool :=
  ops.foldl (fun s op => op.runFlag s) m

/-- C2 counterexample: calling the array group `terminate` on a fresh
unpoisoned flag does not leave the flag reading `true` — it stores `false`. -/
theorem c2_terminate_not_true :
    (TerminableThreadGroupArray.terminate { poisoned := false, value := false }).value ≠ true := by
  decide

/-- C2 amended: `TerminableThreads::terminate` stores `true`, while the
`Terminate` impls of `TerminableThreadHandle`, `TerminableThreadGroup` and
`TerminableThreadGroupArray` store `false` (their `running` flag signals stop
by `false`); in each case a subsequent read returns the stored constant,
whatever the previous flag value was. -/
theorem c2_terminate_stored_values (b : Bool) :
    TerminableThreads.terminate { poisoned := false, value := b }
        = some { poisoned := false, value := true }
    ∧ TerminableThreadHandle.terminate { poisoned := false, value := b }
        = some { poisoned := false, value := false }
    ∧ TerminableThreadGroup.terminate { poisoned := false, value := b }
        = { poisoned := false, value := false }
    ∧ TerminableThreadGroupArray.terminate { poisoned := false, value := b }
        = { poisoned := false, value := false } :=
  ⟨rfl, rfl, rfl, rfl⟩

/-- C8: requesting stop twice in succession leaves the flag exactly as after
one call: for every initial flag value, `terminate` after `terminate` equals
a single `terminate`, both succeed without panicking, and the resulting state
is precisely the unpoisoned cell holding `true` (no other state change). -/
theorem c8_terminate_idempotent (b : Bool) :
    (TerminableThreads.terminate { poisoned := false, value := b }).bind
        TerminableThreads.terminate
      = TerminableThreads.terminate { poisoned := false, value := b }
    ∧ TerminableThreads.terminate { poisoned := false, value := b }
      = some { poisoned := false, value := true } :=
  ⟨rfl, rfl⟩

/-- C10: when the lock around the shared flag is poisoned, the group-level
`terminate` of both `TerminableThreadGroup` and `TerminableThreadGroupArray`
returns normally (its return type carries no error channel) and leaves the
flag cell exactly as it was: the stop request is silently dropped. -/
theorem c10_poisoned_terminate_noop (b : Bool) :
    TerminableThreadGroup.terminate { poisoned := true, value := b }
        = { poisoned := true, value := b }
    ∧ TerminableThreadGroupArray.terminate { poisoned := true, value := b }
        = { poisoned := true, value := b } :=
  ⟨rfl, rfl⟩

/-- C1: at the concrete partial-failure run with outcomes `[Ok 1, panic ()]`
the array group join panics in the supervisor (`none`, from `expect("")`)
instead of returning a per-position report, and the vec group join collapses
to the single first error payload; only `TerminableThreads::join` returns the
per-position report the claim describes. -/
theorem c1_join_partial_failure_eval :
    TerminableThreadGroupArray.join ([.ok 1, .error ()] : List (Except Unit Nat)) = none
    ∧ TerminableThreadGroup.join ([.ok 1, .error ()] : List (Except Unit Nat)) = .error ()
    ∧ TerminableThreads.join ([.ok 1, .error ()] : List (Except Unit Nat))
        = .error [none, some ()] :=
  ⟨rfl, rfl, rfl⟩

/-- C3: with one constant worker, `TerminableThreadGroup::new` spawns zero
threads (the `arc_clones` vec has length zero, so the zip truncates the
function list away) and the subsequent join yields the empty list rather than
the one constant `7`. -/
theorem c3_group_new_spawns_nothing :
    (TerminableThreadGroup.new (T := Nat) (E := Unit) [fun _ => 7]).innerThreads = []
    ∧ TerminableThreadGroup.join
        (TerminableThreadGroup.new (T := Nat) (E := Unit) [fun _ => 7]).innerThreads
      = .ok [] :=
  ⟨rfl, rfl⟩

/-- C4: a worker panic is captured by the single-handle join, the lib join
and the vec group join, but `TerminableThreadGroupArray::join` re-raises it
in the supervisor thread (`none`, from `expect("")`) instead of surfacing it
as the error value of join. -/
theorem c4_abnormal_termination_eval :
    TerminableThreadGroupArray.join ([.error ()] : List (Except Unit Nat)) = none
    ∧ TerminableThreadHandle.join (.error () : Except Unit Nat) = .error ()
    ∧ TerminableThreads.join ([.error ()] : List (Except Unit Nat)) = .error [some ()]
    ∧ TerminableThreadGroup.join ([.error ()] : List (Except Unit Nat)) = .error () :=
  ⟨rfl, rfl, rfl, rfl⟩

/-- C5 counterexample: the flag created by `TerminableThreadGroupArray::new`
does not have initial value `false` — it is created holding `true`. -/
theorem c5_group_flag_not_false :
    (TerminableThreadGroupArray.new (T := Nat) (E := Unit) []).running.value ≠ false := by
  decide

/-- C5 amended: the flag created by `TerminableThreadsBuilder::new` has
initial value `false`, while the flags created by the group constructors
`TerminableThreadGroup::new` and `TerminableThreadGroupArray::new` have
initial value `true`. -/
theorem c5_initial_flag_values {T E : Type} :
    TerminableThreadsBuilder.new.value = false
    ∧ (∀ funcs : List (MutexAtomicBool → T),
        (TerminableThreadGroup.new (E := E) funcs).running.value = true)
    ∧ (∀ funcs : List (MutexAtomicBool → T),
        (TerminableThreadGroupArray.new (E := E) funcs).running.value = true) :=
  ⟨rfl, fun _ => rfl, fun _ => rfl⟩

/-- Collecting a list of results succeeds only when every outcome is `.ok`,
and the input list is then exactly the value list wrapped position by
position. -/
theorem collectResults_ok {E T : Type} :
    ∀ (joined : List (Except E T)) (ts : List T),
      collectResults joined = .ok ts → joined = ts.map Except.ok := by
  intro joined
  induction joined with
  | nil =>
    intro ts h
    cases ts with
    | nil => rfl
    | cons t ts2 => simp [collectResults] at h
  | cons r rs ih =>
    intro ts h
    cases r with
    | error e => simp [collectResults] at h
    | ok t =>
      cases hcr : collectResults rs with
      | error e => simp [collectResults, hcr] at h
      | ok ts2 =>
        simp [collectResults, hcr] at h
        subst h
        simp [ih ts2 hcr]

/-- C6: join output is indexed by spawn position. For the lib join, position
i of the success collection is the unwrapped outcome of thread i and position
i of the error report is derived from the outcome of thread i; for the vec
and array group joins a successful result likewise holds at position i the
value of thread i. The embedding keys every thread by its spawn position, so
this is independent of the order in which threads actually completed. -/
theorem c6_join_ordered {E T : Type} [Inhabited T] (joined : List (Except E T)) :
    (∀ vals, TerminableThreads.join joined = .ok vals →
        ∀ i : Nat, vals[i]? = (joined[i]?).map exceptUnwrap)
    ∧ (∀ rep, TerminableThreads.join joined = .error rep →
        ∀ i : Nat, rep[i]? = (joined[i]?).map fun r => unwrapOr (swapToErr r) none)
    ∧ (∀ ts, TerminableThreadGroup.join joined = .ok ts →
        ∀ i : Nat, joined[i]? = (ts[i]?).map Except.ok)
    ∧ (∀ ts, TerminableThreadGroupArray.join joined = some (.ok ts) →
        ∀ i : Nat, ts[i]? = (joined[i]?).map exceptUnwrap) := by
  refine ⟨?_, ?_, ?_, ?_⟩
  · intro vals h i
    cases ha : joined.any exceptIsErr with
    | false =>
      simp [TerminableThreads.join, ha] at h
      subst h
      simp [List.getElem?_map]
    | true => simp [TerminableThreads.join, ha] at h
  · intro rep h i
    cases ha : joined.any exceptIsErr with
    | false => simp [TerminableThreads.join, ha] at h
    | true =>
      simp [TerminableThreads.join, ha] at h
      subst h
      simp [List.getElem?_map]
  · intro ts h i
    have := collectResults_ok joined ts h
    subst this
    simp [List.getElem?_map]
  · intro ts h i
    cases ha : joined.any exceptIsErr with
    | false =>
      simp [TerminableThreadGroupArray.join, ha] at h
      subst h
      simp [List.getElem?_map]
    | true => simp [TerminableThreadGroupArray.join, ha] at h

/-- Witness for C6: two threads finishing normally with values 1 and 2; the
success collection holds the value of thread 0 at position 0. -/
theorem c6_join_ordered_witness :
    ([1, 2] : List Nat)[0]?
      = (([.ok 1, .ok 2] : List (Except Unit Nat))[0]?).map exceptUnwrap :=
  (c6_join_ordered ([.ok 1, .ok 2] : List (Except Unit Nat))).1 [1, 2] rfl 0

/-- A predicate preserved by every single operation is preserved by a whole
operation sequence. -/
theorem runOps_preserves {Op : Type} (run : Op → MutexAtomicBool → MutexAtomicBool)
    (P : MutexAtomicBool → Prop) (hstep : ∀ op m, P m → P (run op m)) :
    ∀ (ops : List Op) (m : MutexAtomicBool), P m → P (ops.foldl (fun s op => run op s) m)
  | [], _, hm => hm
  | op :: ops, m, hm => runOps_preserves run P hstep ops (run op m) (hstep op m hm)

/-- Each `TerminableThreads` operation keeps a flag that reads `true` at
`true`: `terminate` either rewrites it to `true` or (poisoned mutex) panics
leaving the cell unwritten, and `join` at most calls `terminate`. -/
theorem libOp_keeps_true (op : LibOp) (m : MutexAtomicBool) (h : m.value = true) :
    (op.runFlag m).value = true := by
  have key : ∀ m2 : MutexAtomicBool, m2.value = true →
      ((TerminableThreads.terminate m2).getD m2).value = true := by
    intro m2 h2
    by_cases hp : m2.poisoned = true
    · simpa [TerminableThreads.terminate, hp] using h2
    · simp [TerminableThreads.terminate, hp]
  cases op with
  | terminate => exact key m h
  | join sig =>
    cases sig with
    | false => exact h
    | true => exact key m h

/-- Each `TerminableThreadHandle` operation keeps a flag that reads `false`
at `false`. -/
theorem handleOp_keeps_false (op : HandleOp) (m : MutexAtomicBool) (h : m.value = false) :
    (op.runFlag m).value = false := by
  cases op with
  | terminate =>
    by_cases hp : m.poisoned = true
    · simpa [HandleOp.runFlag, TerminableThreadHandle.terminate, hp] using h
    · simp [HandleOp.runFlag, TerminableThreadHandle.terminate, hp]
  | join => exact h

/-- Each `TerminableThreadGroup` operation keeps a flag that reads `false` at
`false`. -/
theorem groupOp_keeps_false (op : GroupOp) (m : MutexAtomicBool) (h : m.value = false) :
    (op.runFlag m).value = false := by
  cases op with
  | terminate =>
    by_cases hp : m.poisoned = true
    · simpa [GroupOp.runFlag, TerminableThreadGroup.terminate, hp] using h
    · simp [GroupOp.runFlag, TerminableThreadGroup.terminate, hp]
  | join => exact h

/-- Each `TerminableThreadGroupArray` operation keeps a flag that reads
`false` at `false`. -/
theorem arrayGroupOp_keeps_false (op : ArrayGroupOp) (m : MutexAtomicBool)
    (h : m.value = false) : (op.runFlag m).value = false := by
  cases op with
  | terminate =>
    by_cases hp : m.poisoned = true
    · simpa [ArrayGroupOp.runFlag, TerminableThreadGroupArray.terminate, hp] using h
    · simp [ArrayGroupOp.runFlag, TerminableThreadGroupArray.terminate, hp]
  | join => exact h

/-- C7: the stop signal is monotonic. For `TerminableThreads` the
stop-requested value is `true` (the value its `terminate` stores) and no
sequence of library operations ever takes a flag reading `true` back to
`false`; for the handle and the two group types the stop-requested value is
`false` (their `terminate` stores `false` into the `running` flag) and no
sequence of their operations ever takes a flag reading `false` back to
`true`. -/
theorem c7_flag_monotonic :
    (∀ (ops : List LibOp) (m : MutexAtomicBool),
        m.value = true → (runLibOps ops m).value = true)
    ∧ (∀ (ops : List HandleOp) (m : MutexAtomicBool),
        m.value = false → (runHandleOps ops m).value = false)
    ∧ (∀ (ops : List GroupOp) (m : MutexAtomicBool),
        m.value = false → (runGroupOps ops m).value = false)
    ∧ (∀ (ops : List ArrayGroupOp) (m : MutexAtomicBool),
        m.value = false → (runArrayGroupOps ops m).value = false) :=
  ⟨runOps_preserves LibOp.runFlag (fun s => s.value = true) libOp_keeps_true,
   runOps_preserves HandleOp.runFlag (fun s => s.value = false) handleOp_keeps_false,
   runOps_preserves GroupOp.runFlag (fun s => s.value = false) groupOp_keeps_false,
   runOps_preserves ArrayGroupOp.runFlag (fun s => s.value = false) arrayGroupOp_keeps_false⟩

/-- Witness for C7: after a terminate followed by a signalling join, a
`TerminableThreads` flag that was already stopped still reads `true`. -/
theorem c7_flag_monotonic_witness :
    (runLibOps [LibOp.terminate, LibOp.join true]
      { poisoned := false, value := true }).value = true :=
  c7_flag_monotonic.1 [LibOp.terminate, LibOp.join true]
    { poisoned := false, value := true } rfl

/-- Whether an outcome is an error is untouched by transforming only the
values of normal returns. -/
theorem exceptIsErr_mapOk {E T : Type} (f : T → T) (r : Except E T) :
    exceptIsErr (mapOk f r) = exceptIsErr r := by
  cases r <;> rfl

/-- The per-position error entry of an outcome is untouched by transforming
only the values of normal returns. -/
theorem errEntry_mapOk {E T : Type} (f : T → T) (r : Except E T) :
    unwrapOr (swapToErr (mapOk f r)) (none : Option E)
      = unwrapOr (swapToErr r) none := by
  cases r <;> rfl

/-- C9: when at least one thread terminated abnormally, `TerminableThreads::join`
returns the per-position error report, that report holds `none` at every
position whose thread returned normally, and the report is unchanged if the
values of the normally returning threads are replaced by anything else — the
produced values are dropped and cannot be recovered from the result. -/
theorem c9_success_values_dropped {E T : Type} [Inhabited T]
    (joined : List (Except E T)) (h : joined.any exceptIsErr = true) :
    ∃ rep, TerminableThreads.join joined = .error rep
      ∧ (∀ (i : Nat) (t : T), joined[i]? = some (.ok t) → rep[i]? = some none)
      ∧ ∀ f : T → T, TerminableThreads.join (joined.map (mapOk f)) = .error rep := by
  refine ⟨joined.map (fun r => unwrapOr (swapToErr r) none), ?_, ?_, ?_⟩
  · simp [TerminableThreads.join, h]
  · intro i t hi
    rw [List.getElem?_map, hi]
    rfl
  · intro f
    have hany : (joined.map (mapOk f)).any exceptIsErr = true := by
      rw [List.any_map]
      have : (exceptIsErr ∘ mapOk f) = (exceptIsErr : Except E T → Bool) :=
        funext fun r => exceptIsErr_mapOk f r
      rw [this]
      exact h
    have hmap : (joined.map (mapOk f)).map
          (fun r => unwrapOr (swapToErr r) (none : Option E))
        = joined.map (fun r => unwrapOr (swapToErr r) none) := by
      rw [List.map_map]
      exact List.map_congr_left fun r _ => errEntry_mapOk f r
    simp [TerminableThreads.join, hany, hmap]

/-- Witness for C9 at the concrete run with outcomes Ok 1, panic (). -/
theorem c9_success_values_dropped_witness :
    ∃ rep, TerminableThreads.join ([.ok 1, .error ()] : List (Except Unit Nat)) = .error rep
      ∧ (∀ (i : Nat) (t : Nat),
          ([.ok 1, .error ()] : List (Except Unit Nat))[i]? = some (.ok t) →
            rep[i]? = some none)
      ∧ ∀ f : Nat → Nat,
          TerminableThreads.join
              (([.ok 1, .error ()] : List (Except Unit Nat)).map (mapOk f))
            = .error rep :=
  c9_success_values_dropped ([.ok 1, .error ()] : List (Except Unit Nat)) rfl
